import Mathlib

/-!
Verification of the Eufy RoboVac Home Assistant integration
(`custom_components/robovac`): a shallow embedding of the per-model
command/state translation engine (`robovac.py`), the entity update and
activity derivation logic (`vacuum.py`), and the per-model declaration
tables (`vacuums/T2080.py`, `T2193.py`, `T2276.py`, `T2278.py`,
`T2320.py`), together with proofs of the spec's testable properties.
-/

namespace Robovac

/-- Model of the Python runtime values that occur as Tuya data-point values,
command-table entries and entity attributes in this integration:
`None`, `int`, `str` and `bool`. -/
inductive PyVal where
  | pnone
  | pint (n : Int)
  | pstr (s : String)
  | pbool (b : Bool)
  deriving DecidableEq

/-- Python `==` on the values of `PyVal`; in Python `True == 1` and
`False == 0`, while `int`/`str`/`None` mixtures are unequal. -/
def pyEq : PyVal → PyVal → Bool
  | .pnone, .pnone => true
  | .pint a, .pint b => a == b
  | .pstr a, .pstr b => a == b
  | .pbool a, .pbool b => a == b
  | .pbool a, .pint b => (if a then (1 : Int) else 0) == b
  | .pint a, .pbool b => a == (if b then (1 : Int) else 0)
  | _, _ => false

/-- Python `str()` on the values of `PyVal`. -/
def pyStr : PyVal → String
  | .pnone => "None"
  | .pint n => toString n
  | .pstr s => s
  | .pbool b => if b then "True" else "False"

/-- Python truthiness on the values of `PyVal`. -/
def pyTruthy : PyVal → Bool
  | .pnone => false
  | .pint n => n != 0
  | .pstr s => s != ""
  | .pbool b => b

/-- Python whitespace stripped by `int(str)` (restricted to the ASCII
whitespace characters). -/
def isPySpace (c : Char) : Bool :=
  c == ' ' || c == '\t' || c == '\n' || c == '\r' || c == '\x0b' || c == '\x0c'

/-- Body of a Python decimal integer literal after the first digit: ASCII
digits, with single underscores permitted between digits. -/
def pyDigits : List Char → Nat → Option Nat
  | [], acc => some acc
  | '_' :: c :: rest, acc =>
      if c.isDigit then pyDigits rest (acc * 10 + (c.toNat - 48)) else none
  | c :: rest, acc =>
      if c.isDigit then pyDigits rest (acc * 10 + (c.toNat - 48)) else none

/-- Digits with a leading digit required (no leading underscore). -/
def pyDigitsNE : List Char → Option Nat
  | c :: rest => if c.isDigit then pyDigits rest (c.toNat - 48) else none
  | [] => none

/-- Model of Python `int(s)` for a string `s` (restricted to ASCII digits and
ASCII whitespace): strip whitespace, parse an optional sign and a nonempty
run of digits with single underscores between digits. -/
def pyIntOfString (s : String) : Option Int :=
  let l := ((s.toList.dropWhile isPySpace).reverse.dropWhile isPySpace).reverse
  match l with
  | '+' :: rest => (pyDigitsNE rest).map Int.ofNat
  | '-' :: rest => (pyDigitsNE rest).map (fun n => -(n : Int))
  | rest => (pyDigitsNE rest).map Int.ofNat

/-- Model of Python `int(x)` on a `PyVal`: ints pass through, bools convert
to 0/1, strings parse, `None` raises (`none`). -/
def pyToInt : PyVal → Option Int
  | .pint n => some n
  | .pbool b => some (if b then 1 else 0)
  | .pstr s => pyIntOfString s
  | .pnone => none

/-- Home Assistant `VacuumActivity` states. -/
inductive VacuumActivity where
  | cleaning
  | docked
  | error
  | idle
  | paused
  | returning
  deriving DecidableEq

/-- Modelled from the spec: the closed set of logical command identifiers of
`RobovacCommand` in `vacuums/base.py` (the file itself is not in the source
tree; the spec lists the identifiers in its data-model section and the model
tables under `vacuums/` use exactly these members). -/
inductive RobovacCommand where
  | START_PAUSE
  | DIRECTION
  | MODE
  | STATUS
  | RETURN_HOME
  | LOCATE
  | ERROR
  | FAN_SPEED
  | BATTERY
  | BOOST_IQ
  | CLEANING_TIME
  | CLEANING_AREA
  | AUTO_RETURN
  | DO_NOT_DISTURB
  | CONSUMABLES
  | ROOM_CLEAN
  deriving DecidableEq

/-- Python `.name` of a `RobovacCommand` enum member. -/
def cmdName : RobovacCommand → String
  | .START_PAUSE => "START_PAUSE"
  | .DIRECTION => "DIRECTION"
  | .MODE => "MODE"
  | .STATUS => "STATUS"
  | .RETURN_HOME => "RETURN_HOME"
  | .LOCATE => "LOCATE"
  | .ERROR => "ERROR"
  | .FAN_SPEED => "FAN_SPEED"
  | .BATTERY => "BATTERY"
  | .BOOST_IQ => "BOOST_IQ"
  | .CLEANING_TIME => "CLEANING_TIME"
  | .CLEANING_AREA => "CLEANING_AREA"
  | .AUTO_RETURN => "AUTO_RETURN"
  | .DO_NOT_DISTURB => "DO_NOT_DISTURB"
  | .CONSUMABLES => "CONSUMABLES"
  | .ROOM_CLEAN => "ROOM_CLEAN"

/-- The `values` field of a command entry: either a list of permitted raw
literals or a mapping (Python dict with string keys). -/
inductive CmdValues where
  | vlist (items : List PyVal)
  | vdict (pairs : List (String × PyVal))
  deriving DecidableEq

/-- One entry of a model's `commands` dict: either a direct (non-dict) value,
or a dict with optional `code` and `values` keys. -/
inductive CommandDecl where
  | direct (v : PyVal)
  | entry (code : Option PyVal) (values : Option CmdValues)
  deriving DecidableEq

/-- A `RobovacModelDetails` class from `vacuums/base.py` as instantiated by
the per-model files under `vacuums/`. -/
structure RobovacModelDetails where
  homeassistant_features : Nat
  robovac_features : Nat
  commands : List (RobovacCommand × CommandDecl)
  activity_mapping : Option (List (String × VacuumActivity)) := none
  deriving DecidableEq

/-- Python dict lookup in a string-keyed mapping, with a `PyVal` key, using
Python `==` semantics (so an `int` key never matches a `str` dict key). -/
def lookupPy (pairs : List (String × PyVal)) (v : PyVal) : Option PyVal :=
  (pairs.find? (fun p => pyEq (.pstr p.1) v)).map (·.2)

/-- `RoboVac._get_command_values` (robovac.py): the command's `values` field
when the command is declared, is a dict, and its `values` member is a dict;
otherwise `None`. -/
def getCommandValues (m : RobovacModelDetails) (cmd : RobovacCommand) :
    Option (List (String × PyVal)) :=
  match m.commands.find? (fun p => p.1 == cmd) with
  | some (_, .entry _ (some (.vdict d))) => some d
  | _ => none

/-- `RoboVac.getRoboVacCommandValue` (robovac.py): if the command has a
values mapping and the value is one of its keys, return `str` of the mapped
entry; otherwise return the value unchanged (membership test and indexing
both use the value itself). -/
def getRoboVacCommandValue (m : RobovacModelDetails) (cmd : RobovacCommand)
    (v : PyVal) : PyVal :=
  match getCommandValues m cmd with
  | some d =>
      match lookupPy d v with
      | some x => .pstr (pyStr x)
      | none => v
  | none => v

/-- `RoboVac.getRoboVacHumanReadableValue` (robovac.py). Returns the
translated value together with a flag recording whether the warning path was
taken. The membership test uses `str(value)` while the indexing uses
`value` itself; a `KeyError` from the indexing is swallowed and falls
through to the warning return. -/
def getRoboVacHumanReadableValue (m : RobovacModelDetails)
    (cmd : RobovacCommand) (v : PyVal) : PyVal × Bool :=
  match getCommandValues m cmd with
  | some d =>
      if (lookupPy d (.pstr (pyStr v))).isSome then
        match lookupPy d v with
        | some x => (.pstr (pyStr x), false)
        | none => (v, true)
      else (v, true)
  | none => (v, true)

/-- The alias table of `RoboVac.getDpsCodes`: `BATTERY` is reported under
`BATTERY_LEVEL` and `ERROR` under `ERROR_CODE`; all other commands use
their own name. -/
def dpsName (c : RobovacCommand) : String :=
  if cmdName c = "BATTERY" then "BATTERY_LEVEL"
  else if cmdName c = "ERROR" then "ERROR_CODE"
  else cmdName c

/-- Python dict assignment `d[k] = v` on an insertion-ordered dict:
overwrite in place when the key exists, else append. -/
def dictInsert (d : List (String × String)) (k v : String) :
    List (String × String) :=
  if d.any (fun p => p.1 == k) then
    d.map (fun p => if p.1 == k then (k, v) else p)
  else d ++ [(k, v)]

/-- One iteration of the `getDpsCodes` loop: dict entries with a `code` key
store `str` of the code under the aliased name, dict entries without one are
skipped, and non-dict entries store `str` of themselves. -/
def dpsStep (acc : List (String × String)) (p : RobovacCommand × CommandDecl) :
    List (String × String) :=
  match p.2 with
  | .entry (some c) _ => dictInsert acc (dpsName p.1) (pyStr c)
  | .entry none _ => acc
  | .direct v => dictInsert acc (dpsName p.1) (pyStr v)

/-- `RoboVac.getDpsCodes` (robovac.py): map each declared command to its DPS
code under the aliased name. -/
def getDpsCodes (m : RobovacModelDetails) : List (String × String) :=
  m.commands.foldl dpsStep []

namespace VacuumEntityFeature

/-- Home Assistant `VacuumEntityFeature` flag values (public Home Assistant
constants, an external interface of this integration). -/
def TURN_ON : Nat := 1

def TURN_OFF : Nat := 2

def PAUSE : Nat := 4

def STOP : Nat := 8

def RETURN_HOME : Nat := 16

def FAN_SPEED : Nat := 32

def BATTERY : Nat := 64

def STATUS : Nat := 128

def SEND_COMMAND : Nat := 256

def LOCATE : Nat := 512

def CLEAN_SPOT : Nat := 1024

def MAP : Nat := 2048

def STATE : Nat := 4096

def START : Nat := 8192

end VacuumEntityFeature

namespace RoboVacEntityFeature

/-- Modelled from the spec: `RoboVacEntityFeature` in `vacuums/base.py` is a
bitset of vendor-specific capabilities (the file is not in the source tree).
The members referenced by the model tables and `vacuum.py` are assigned
distinct bits; the claims depend only on the bits being distinct. -/
def CLEANING_TIME : Nat := 1

def CLEANING_AREA : Nat := 2

def DO_NOT_DISTURB : Nat := 4

def AUTO_RETURN : Nat := 8

def CONSUMABLES : Nat := 16

def ROOM : Nat := 32

def ZONE : Nat := 64

def MAP : Nat := 128

def BOOST_IQ : Nat := 256

def EDGE : Nat := 512

def SMALL_ROOM : Nat := 1024

end RoboVacEntityFeature

/-- `vacuums/T2080.py` (RoboVac S1 Pro). -/
def T2080 : RobovacModelDetails where
  homeassistant_features :=
    VacuumEntityFeature.BATTERY |||
    VacuumEntityFeature.CLEAN_SPOT |||
    VacuumEntityFeature.FAN_SPEED |||
    VacuumEntityFeature.LOCATE |||
    VacuumEntityFeature.PAUSE |||
    VacuumEntityFeature.RETURN_HOME |||
    VacuumEntityFeature.SEND_COMMAND |||
    VacuumEntityFeature.START |||
    VacuumEntityFeature.STATE |||
    VacuumEntityFeature.STOP |||
    VacuumEntityFeature.MAP
  robovac_features :=
    RoboVacEntityFeature.CLEANING_TIME |||
    RoboVacEntityFeature.CLEANING_AREA |||
    RoboVacEntityFeature.DO_NOT_DISTURB |||
    RoboVacEntityFeature.AUTO_RETURN |||
    RoboVacEntityFeature.ROOM |||
    RoboVacEntityFeature.ZONE |||
    RoboVacEntityFeature.BOOST_IQ |||
    RoboVacEntityFeature.MAP |||
    RoboVacEntityFeature.CONSUMABLES
  commands := [
    (.START_PAUSE, .entry (some (.pint 2)) none),
    (.DIRECTION, .entry (some (.pint 176)) (some (.vlist
      [.pstr "forward", .pstr "back", .pstr "left", .pstr "right"]))),
    (.MODE, .entry (some (.pint 152)) (some (.vdict [
      ("BBoCCAE=", .pstr "auto"),
      ("AggN", .pstr "pause"),
      ("AA==", .pstr "Spot"),
      ("AggG", .pstr "return"),
      ("AggO", .pstr "Nosweep")]))),
    (.STATUS, .entry (some (.pint 153)) (some (.vdict [
      ("CAoAEAUyAggB", .pstr "Paused"),
      ("CAoCCAEQBTIA", .pstr "Room Cleaning"),
      ("CAoCCAEQBVIA", .pstr "Room Positioning"),
      ("DAoCCAEQBTICEAFSAA==", .pstr "Room Positioning"),
      ("CgoCCAEQBTICCAE=", .pstr "Room Paused"),
      ("BhAHQgBSAA==", .pstr "Standby"),
      ("BgoAEAUyAA==", .pstr "Standby"),
      ("BBAHQgA=", .pstr "Heading Home"),
      ("BBADGgA=", .pstr "Charging"),
      ("BhADGgIIAQ==", .pstr "Completed"),
      ("AA==", .pstr "Standby"),
      ("AgoA", .pstr "Heading Home"),
      ("AhAB", .pstr "Sleeping"),
      ("DAoCCAEQCRoCCAEyAA==", .pstr "Adding Water"),
      ("BhAJOgIQAg==", .pstr "Drying Mop"),
      ("CBAJGgA6AhAC", .pstr "Drying Mop"),
      ("ChAJGgIIAToCEAI=", .pstr "Drying Mop"),
      ("EAoCCAEQCRoCCAEyADoCEAE=", .pstr "Washing Mop"),
      ("BhAJOgIQAQ==", .pstr "Washing Mop"),
      ("AhAJ", .pstr "Removing Dirty Water"),
      ("BhAGGgIIAQ==", .pstr "Manual Control"),
      ("CgoAEAkaAggBMgA=", .pstr "Auto Cleaning")]))),
    (.RETURN_HOME, .entry (some (.pint 152)) (some (.vlist [.pstr "AggB"]))),
    (.LOCATE, .entry (some (.pint 103)) none),
    (.ERROR, .entry (some (.pint 106)) none),
    (.FAN_SPEED, .entry (some (.pint 158)) (some (.vdict [
      ("quiet", .pstr "Quiet"),
      ("standard", .pstr "Standard"),
      ("turbo", .pstr "Turbo"),
      ("max", .pstr "Max")]))),
    (.BATTERY, .entry (some (.pint 163)) none),
    (.BOOST_IQ, .entry (some (.pint 159)) none),
    (.CLEANING_TIME, .entry (some (.pint 6)) none),
    (.CLEANING_AREA, .entry (some (.pint 7)) none)]
  activity_mapping := some [
    ("AUTO", .cleaning),
    ("POSITION", .cleaning),
    ("Paused", .paused),
    ("Auto Cleaning", .cleaning),
    ("Room Cleaning", .cleaning),
    ("Room Positioning", .cleaning),
    ("Room Paused", .paused),
    ("SPOT", .cleaning),
    ("SPOT_POSITION", .cleaning),
    ("SPOT_PAUSE", .paused),
    ("START_MANUAL", .cleaning),
    ("Standby", .idle),
    ("Heading Home", .returning),
    ("Charging", .docked),
    ("Completed", .docked),
    ("Sleeping", .idle),
    ("Drying Mop", .docked),
    ("Washing Mop", .docked),
    ("Removing Dirty Water", .docked),
    ("Emptying Dust", .docked),
    ("Manual Control", .cleaning)]

/-- `vacuums/T2193.py` (RoboVac LR30 Hybrid). -/
def T2193 : RobovacModelDetails where
  homeassistant_features :=
    VacuumEntityFeature.BATTERY |||
    VacuumEntityFeature.CLEAN_SPOT |||
    VacuumEntityFeature.FAN_SPEED |||
    VacuumEntityFeature.LOCATE |||
    VacuumEntityFeature.PAUSE |||
    VacuumEntityFeature.RETURN_HOME |||
    VacuumEntityFeature.SEND_COMMAND |||
    VacuumEntityFeature.START |||
    VacuumEntityFeature.STATE |||
    VacuumEntityFeature.STOP |||
    VacuumEntityFeature.MAP
  robovac_features :=
    RoboVacEntityFeature.CLEANING_TIME |||
    RoboVacEntityFeature.CLEANING_AREA |||
    RoboVacEntityFeature.DO_NOT_DISTURB |||
    RoboVacEntityFeature.AUTO_RETURN |||
    RoboVacEntityFeature.ROOM |||
    RoboVacEntityFeature.ZONE |||
    RoboVacEntityFeature.BOOST_IQ |||
    RoboVacEntityFeature.MAP |||
    RoboVacEntityFeature.CONSUMABLES
  commands := [
    (.START_PAUSE, .entry (some (.pint 2)) none),
    (.DIRECTION, .entry (some (.pint 3)) (some (.vdict [
      ("forward", .pstr "Forward"),
      ("back", .pstr "Back"),
      ("left", .pstr "Left"),
      ("right", .pstr "Right")]))),
    (.MODE, .entry (some (.pint 5)) (some (.vdict [
      ("auto", .pstr "Auto"),
      ("small_room", .pstr "SmallRoom"),
      ("spot", .pstr "Spot"),
      ("edge", .pstr "Edge"),
      ("nosweep", .pstr "Nosweep")]))),
    (.STATUS, .entry (some (.pint 15)) none),
    (.RETURN_HOME, .entry (some (.pint 101)) none),
    (.FAN_SPEED, .entry (some (.pint 102)) (some (.vdict [
      ("quiet", .pstr "Quiet"),
      ("standard", .pstr "Standard"),
      ("turbo", .pstr "Turbo"),
      ("max", .pstr "Max")]))),
    (.LOCATE, .entry (some (.pint 103)) none),
    (.BATTERY, .entry (some (.pint 104)) none),
    (.ERROR, .entry (some (.pint 106)) none)]

/-- `vacuums/T2276.py` (X8 Pro SES); its DPS codes are strings. -/
def T2276 : RobovacModelDetails where
  homeassistant_features :=
    VacuumEntityFeature.BATTERY |||
    VacuumEntityFeature.FAN_SPEED |||
    VacuumEntityFeature.LOCATE |||
    VacuumEntityFeature.PAUSE |||
    VacuumEntityFeature.RETURN_HOME |||
    VacuumEntityFeature.SEND_COMMAND |||
    VacuumEntityFeature.START |||
    VacuumEntityFeature.STATE |||
    VacuumEntityFeature.STOP
  robovac_features :=
    RoboVacEntityFeature.DO_NOT_DISTURB |||
    RoboVacEntityFeature.BOOST_IQ
  commands := [
    (.START_PAUSE, .entry (some (.pstr "1")) (some (.vdict [
      ("start", .pbool true),
      ("stop", .pbool false)]))),
    (.STATUS, .entry (some (.pstr "15")) none),
    (.MODE, .entry (some (.pstr "5")) (some (.vdict [
      ("auto", .pstr "auto"),
      ("spot", .pstr "spot"),
      ("edge", .pstr "edge")]))),
    (.RETURN_HOME, .entry (some (.pstr "7")) (some (.vdict [
      ("return_home", .pbool true)]))),
    (.FAN_SPEED, .entry (some (.pstr "102")) (some (.vdict [
      ("max", .pstr "Max"),
      ("mid", .pstr "Mid"),
      ("min", .pstr "Min")]))),
    (.BATTERY, .entry (some (.pstr "104")) none),
    (.ERROR, .entry (some (.pstr "2")) none)]

/-- `vacuums/T2278.py` (eufy Clean L60 Hybrid SES). -/
def T2278 : RobovacModelDetails where
  homeassistant_features :=
    VacuumEntityFeature.BATTERY |||
    VacuumEntityFeature.FAN_SPEED |||
    VacuumEntityFeature.LOCATE |||
    VacuumEntityFeature.PAUSE |||
    VacuumEntityFeature.RETURN_HOME |||
    VacuumEntityFeature.SEND_COMMAND |||
    VacuumEntityFeature.START |||
    VacuumEntityFeature.STATE |||
    VacuumEntityFeature.STOP
  robovac_features :=
    RoboVacEntityFeature.DO_NOT_DISTURB |||
    RoboVacEntityFeature.BOOST_IQ
  commands := [
    (.MODE, .entry (some (.pint 152)) (some (.vdict [
      ("small_room", .pstr "AA=="),
      ("pause", .pstr "AggN"),
      ("edge", .pstr "AggG"),
      ("auto", .pstr "BBoCCAE="),
      ("nosweep", .pstr "AggO")]))),
    (.STATUS, .entry (some (.pint 173)) none),
    (.RETURN_HOME, .entry (some (.pint 153)) (some (.vdict [
      ("return_home", .pstr "AggB")]))),
    (.FAN_SPEED, .entry (some (.pint 154)) (some (.vdict [
      ("fan_speed", .pstr "AgkBCgIKAQoDCgEKBAoB")]))),
    (.LOCATE, .entry (some (.pint 153)) (some (.vdict [
      ("locate", .pstr "AggC")]))),
    (.BATTERY, .entry (some (.pint 172)) none),
    (.ERROR, .entry (some (.pint 169)) none)]

/-- `vacuums/T2320.py` (X9 Pro with Auto-Clean Station). -/
def T2320 : RobovacModelDetails where
  homeassistant_features :=
    VacuumEntityFeature.BATTERY |||
    VacuumEntityFeature.FAN_SPEED |||
    VacuumEntityFeature.LOCATE |||
    VacuumEntityFeature.PAUSE |||
    VacuumEntityFeature.RETURN_HOME |||
    VacuumEntityFeature.SEND_COMMAND |||
    VacuumEntityFeature.START |||
    VacuumEntityFeature.STATE |||
    VacuumEntityFeature.STOP
  robovac_features :=
    RoboVacEntityFeature.DO_NOT_DISTURB |||
    RoboVacEntityFeature.BOOST_IQ
  commands := [
    (.START_PAUSE, .entry (some (.pint 2)) (some (.vdict [
      ("start", .pbool true),
      ("pause", .pbool false)]))),
    (.MODE, .entry (some (.pint 152)) (some (.vdict [
      ("auto", .pstr "auto"),
      ("return", .pstr "return"),
      ("pause", .pstr "pause"),
      ("small_room", .pstr "small_room"),
      ("single_room", .pstr "single_room")]))),
    (.STATUS, .entry (some (.pint 173)) none),
    (.RETURN_HOME, .entry (some (.pint 153)) (some (.vdict [
      ("return_home", .pbool true)]))),
    (.FAN_SPEED, .entry (some (.pint 154)) (some (.vdict [
      ("Standard", .pstr "standard"),
      ("Boost IQ", .pstr "boost_iq"),
      ("Max", .pstr "max"),
      ("Quiet", .pstr "Quiet")]))),
    (.LOCATE, .entry (some (.pint 153)) (some (.vdict [
      ("locate", .pbool true)]))),
    (.BATTERY, .entry (some (.pint 172)) none),
    (.ERROR, .entry (some (.pint 169)) none)]

/-- The model registry `ROBOVAC_MODELS` (`vacuums/__init__.py`, keyed by
model code), restricted to the model files present in the source tree. -/
def registry : List (String × RobovacModelDetails) :=
  [("T2080", T2080), ("T2193", T2193), ("T2276", T2276),
   ("T2278", T2278), ("T2320", T2320)]

/-- Value of a base64 alphabet character, `none` for any other character. -/
def b64CharVal (c : Char) : Option Nat :=
  if 'A' ≤ c ∧ c ≤ 'Z' then some (c.toNat - 65)
  else if 'a' ≤ c ∧ c ≤ 'z' then some (c.toNat - 97 + 26)
  else if '0' ≤ c ∧ c ≤ '9' then some (c.toNat - 48 + 52)
  else if c = '+' then some 62
  else if c = '/' then some 63
  else none

/-- The three bytes of a full 24-bit base64 quad. -/
def b64Bytes3 (acc : Nat) : List Nat :=
  [acc / 65536, (acc / 256) % 256, acc % 256]

/-- The bytes of a final partial quad terminated by padding: 2 data
characters give one byte, 3 give two (trailing bits are discarded, as
CPython's lenient decoder does). -/
def b64Final (acc quadPos : Nat) : List Nat :=
  if quadPos = 2 then [acc / 16]
  else [acc / 1024, (acc / 4) % 256]

/-- Core loop of CPython's lenient `binascii.a2b_base64`: characters outside
the alphabet are skipped; a pad character at quad position ≥ 2 counts toward
the pad total and decoding stops once position + pads reaches 4 (emitting
the partial quad and ignoring the rest); a pad earlier in a quad is skipped;
a leftover partial quad at the end is an error (`Incorrect padding`). -/
def b64Core : List Char → Nat → Nat → Nat → List Nat → Option (List Nat)
  | [], _, quadPos, _, out => if quadPos = 0 then some out else none
  | c :: rest, acc, quadPos, pads, out =>
      if c = '=' then
        if 2 ≤ quadPos ∧ 4 ≤ quadPos + pads + 1 then
          some (out ++ b64Final acc quadPos)
        else if 2 ≤ quadPos then b64Core rest acc quadPos (pads + 1) out
        else b64Core rest acc quadPos pads out
      else
        match b64CharVal c with
        | some v =>
            if quadPos = 3 then
              b64Core rest 0 0 pads (out ++ b64Bytes3 (acc * 64 + v))
            else b64Core rest (acc * 64 + v) (quadPos + 1) pads out
        | none => b64Core rest acc quadPos pads out

/-- `base64.b64decode` on a Python `str`: the string is first encoded as
ASCII (failing on any non-ASCII character), then decoded leniently. -/
def b64decodePy (s : String) : Option (List Nat) :=
  if s.toList.all (fun c => c.toNat < 128) then
    b64Core s.toList 0 0 0 []
  else none

/-- `bytes.decode("ascii")`: fails when any byte is ≥ 128. -/
def asciiDecode (bytes : List Nat) : Option String :=
  if bytes.all (fun b => b < 128) then
    some (String.mk (bytes.map Char.ofNat))
  else none

mutual

/-- A Python literal as produced by `ast.literal_eval`, restricted to the
forms occurring in consumables payloads: ints, strings, booleans, `None`,
lists and dicts (the element sequences are inlined as their own types). -/
inductive PyLit where
  | int (n : Int)
  | str (s : String)
  | bool (b : Bool)
  | nullv
  | list (items : PyLitSeq)
  | dict (pairs : PyLitPairs)

/-- The element sequence of a list literal. -/
inductive PyLitSeq where
  | nil
  | cons (hd : PyLit) (tl : PyLitSeq)

/-- The key/value bindings of a dict literal, in source order. -/
inductive PyLitPairs where
  | nil
  | cons (key val : PyLit) (tl : PyLitPairs)

end

/-- Sequence of literals from a parsed item list. -/
def PyLitSeq.ofList : List PyLit → PyLitSeq
  | [] => .nil
  | l :: ls => .cons l (PyLitSeq.ofList ls)

/-- Dict bindings from a parsed pair list. -/
def PyLitPairs.ofList : List (PyLit × PyLit) → PyLitPairs
  | [] => .nil
  | p :: ps => .cons p.1 p.2 (PyLitPairs.ofList ps)

/-- Python `==` between a literal and a string (the consumables code only
ever compares against string keys): only an equal string matches. -/
def litEqStr : PyLit → String → Bool
  | .str s, k => s == k
  | _, _ => false

/-- Whether some key of a dict literal equals the given string. -/
def PyLitPairs.anyKey : PyLitPairs → String → Bool
  | .nil, _ => false
  | .cons k _ tl, key => litEqStr k key || PyLitPairs.anyKey tl key

/-- Whether some element of a list literal equals the given string. -/
def PyLitSeq.anyEqStr : PyLitSeq → String → Bool
  | .nil, _ => false
  | .cons hd tl, key => litEqStr hd key || PyLitSeq.anyEqStr tl key

/-- Dict indexing by a string key: the last binding wins, as duplicate keys
in a Python dict literal overwrite earlier ones. -/
def PyLitPairs.lookupLast : PyLitPairs → String → Option PyLit
  | .nil, _ => none
  | .cons k v tl, key =>
      match PyLitPairs.lookupLast tl key with
      | some r => some r
      | none => if litEqStr k key then some v else none

/-- `skipWs` drops leading Python whitespace. -/
def skipWs (cs : List Char) : List Char := cs.dropWhile isPySpace

/-- One escape of a quoted Python string literal (the common escapes; an
unsupported escape fails the parse). -/
def unescape (c : Char) : Option Char :=
  if c = 'n' then some '\n'
  else if c = 't' then some '\t'
  else if c = 'r' then some '\r'
  else if c = '\\' then some '\\'
  else if c = '\'' then some '\''
  else if c = '"' then some '"'
  else if c = '0' then some (Char.ofNat 0)
  else none

/-- Negation of a parsed numeric literal. -/
def negLit : PyLit → PyLit
  | .int n => .int (-n)
  | l => l

/-- Consume the remaining digits of an integer literal (single underscores
between digits permitted, as in Python). -/
def pyNumTail : List Char → Nat → Option (Nat × List Char)
  | '_' :: c :: rest, acc =>
      if c.isDigit then pyNumTail rest (acc * 10 + (c.toNat - 48))
      else none
  | c :: rest, acc =>
      if c.isDigit then pyNumTail rest (acc * 10 + (c.toNat - 48))
      else some (acc, c :: rest)
  | [], acc => some (acc, [])

/-- Parse an unsigned integer literal. -/
def pyLitNum (cs : List Char) : Option (PyLit × List Char) :=
  match cs with
  | c :: rest =>
      if c.isDigit then
        (pyNumTail rest (c.toNat - 48)).map
          (fun p => (PyLit.int (Int.ofNat p.1), p.2))
      else none
  | [] => none

mutual

/-- Parse one Python literal (fuel-indexed recursive descent). -/
def parseLit : Nat → List Char → Option (PyLit × List Char)
  | 0, _ => none
  | fuel + 1, cs =>
      match skipWs cs with
      | '{' :: rest => parseDict fuel (skipWs rest) []
      | '[' :: rest => parseListItems fuel (skipWs rest) []
      | '\'' :: rest => parseStrBody fuel rest '\'' []
      | '"' :: rest => parseStrBody fuel rest '"' []
      | '-' :: rest =>
          (pyLitNum (skipWs rest)).map (fun p => (negLit p.1, p.2))
      | '+' :: rest => pyLitNum (skipWs rest)
      | 'T' :: 'r' :: 'u' :: 'e' :: rest => some (.bool true, rest)
      | 'F' :: 'a' :: 'l' :: 's' :: 'e' :: rest => some (.bool false, rest)
      | 'N' :: 'o' :: 'n' :: 'e' :: rest => some (.nullv, rest)
      | rest => pyLitNum rest

/-- Parse the items of a dict literal after `{`. -/
def parseDict (fuel : Nat) (cs : List Char) (acc : List (PyLit × PyLit)) :
    Option (PyLit × List Char) :=
  match fuel with
  | 0 => none
  | fuel + 1 =>
      match cs with
      | '}' :: rest => some (.dict (PyLitPairs.ofList acc.reverse), rest)
      | _ =>
          match parseLit fuel cs with
          | none => none
          | some (k, rest1) =>
              match skipWs rest1 with
              | ':' :: rest2 =>
                  match parseLit fuel rest2 with
                  | none => none
                  | some (v, rest3) =>
                      match skipWs rest3 with
                      | ',' :: rest4 =>
                          parseDict fuel (skipWs rest4) ((k, v) :: acc)
                      | '}' :: rest4 =>
                          some (.dict (PyLitPairs.ofList ((k, v) :: acc).reverse), rest4)
                      | _ => none
              | _ => none

/-- Parse the items of a list literal after `[`. -/
def parseListItems (fuel : Nat) (cs : List Char) (acc : List PyLit) :
    Option (PyLit × List Char) :=
  match fuel with
  | 0 => none
  | fuel + 1 =>
      match cs with
      | ']' :: rest => some (.list (PyLitSeq.ofList acc.reverse), rest)
      | _ =>
          match parseLit fuel cs with
          | none => none
          | some (v, rest1) =>
              match skipWs rest1 with
              | ',' :: rest2 => parseListItems fuel (skipWs rest2) (v :: acc)
              | ']' :: rest2 =>
                  some (.list (PyLitSeq.ofList (v :: acc).reverse), rest2)
              | _ => none

/-- Parse the body of a quoted string literal up to the closing quote. -/
def parseStrBody (fuel : Nat) (cs : List Char) (quote : Char)
    (acc : List Char) : Option (PyLit × List Char) :=
  match fuel with
  | 0 => none
  | fuel + 1 =>
      match cs with
      | [] => none
      | '\\' :: c :: rest =>
          match unescape c with
          | some e => parseStrBody fuel rest quote (e :: acc)
          | none => none
      | c :: rest =>
          if c = quote then some (.str (String.mk acc.reverse), rest)
          else parseStrBody fuel rest quote (c :: acc)

end

/-- `ast.literal_eval` on a string: parse one literal and require only
whitespace to remain. -/
def pyLiteralEval (s : String) : Option PyLit :=
  match parseLit (2 * s.length + 4) s.toList with
  | some (v, rest) => if skipWs rest = [] then some v else none
  | none => none

/-- A Tuya data-point snapshot (`RoboVac._dps` / `RoboVacEntity.tuyastatus`),
a dict keyed by DPS code strings. -/
abbrev Dps := List (String × PyVal)

/-- `tuyastatus.get(code)` followed by an `is not None` test: `none` both
when the key is absent and when its value is `None`. -/
def dget (d : Dps) (k : String) : Option PyVal :=
  match List.lookup k d with
  | some v => if v = .pnone then none else some v
  | none => none

/-- `UPDATE_RETRIES` (vacuum.py line 72). -/
def UPDATE_RETRIES : Nat := 3

/-- The mutable attributes of a `RoboVacEntity` touched by the update path,
plus a counter of `_LOGGER.warning` calls made along the way. -/
structure EntityState where
  battery_level : Int := 0
  tuya_state : Option PyVal := none
  error_code : Option PyVal := none
  mode : Option PyVal := none
  fan_speed : Option PyVal := none
  cleaning_area : Option String := none
  cleaning_time : Option String := none
  auto_return : Option String := none
  do_not_disturb : Option String := none
  boost_iq : Option String := none
  consumables : Option PyLit := none
  robovac_supported : Nat := 0
  activity_mapping : Option (List (String × VacuumActivity)) := none
  update_failures : Nat := 0
  tuyastatus : Option Dps := none
  warnings : Nat := 0

/-- The entity state right after a successful `RoboVacEntity.__init__` for a
supported model: zero battery, feature masks and activity mapping taken from
the model, everything else unset. -/
def mkInitialState (m : RobovacModelDetails) : EntityState :=
  { robovac_supported := m.robovac_features
    activity_mapping := m.activity_mapping }

/-- `RoboVacEntity._get_dps_code` (vacuum.py): model-declared DPS codes
first, then the `TuyaCodes` defaults (passed in as `tuya`, since
`vacuums/base.py` is not in the source tree), else the empty string. -/
def getDpsCode (tuya : List (String × String))
    (vac : Option RobovacModelDetails) (name : String) : String :=
  match vac with
  | none => (List.lookup name tuya).getD ""
  | some m =>
      match List.lookup name (getDpsCodes m) with
      | some c => c
      | none => (List.lookup name tuya).getD ""

/-- `RoboVacEntity._get_consumables_codes` (vacuum.py): the model's
`CONSUMABLES` entry split on commas and stripped, else the
`TUYA_CONSUMABLES_CODES` default list (passed in as `defConsum`). -/
def getConsumablesCodes (defConsum : List String)
    (vac : Option RobovacModelDetails) : List String :=
  match vac with
  | none => defConsum
  | some m =>
      match List.lookup "CONSUMABLES" (getDpsCodes m) with
      | some s => (s.splitOn ",").map String.trim
      | none => defConsum

/-- `RoboVacEntity._update_battery_level` (vacuum.py): clamp a convertible
value into 0..100, warn and zero an unconvertible one, zero a missing one. -/
def updateBatteryLevel (tuya : List (String × String))
    (vac : Option RobovacModelDetails) (s : EntityState) : EntityState :=
  match s.tuyastatus with
  | none => s
  | some dps =>
      match dget dps (getDpsCode tuya vac "BATTERY_LEVEL") with
      | some v =>
          match pyToInt v with
          | some n => { s with battery_level := max 0 (min 100 n) }
          | none => { s with battery_level := 0, warnings := s.warnings + 1 }
      | none => { s with battery_level := 0 }

/-- `RoboVacEntity._update_state_and_error` (vacuum.py): translate the raw
status and error DP values to human-readable form, defaulting each to the
integer 0 when absent. -/
def updateStateAndError (tuya : List (String × String))
    (vac : Option RobovacModelDetails) (s : EntityState) : EntityState :=
  match s.tuyastatus with
  | none => s
  | some dps =>
      let s1 :=
        match dget dps (getDpsCode tuya vac "STATUS"), vac with
        | some v, some m =>
            let r := getRoboVacHumanReadableValue m .STATUS v
            { s with tuya_state := some r.1
                     warnings := s.warnings + (if r.2 then 1 else 0) }
        | _, _ => { s with tuya_state := some (.pint 0) }
      match dget dps (getDpsCode tuya vac "ERROR_CODE"), vac with
      | some v, some m =>
          let r := getRoboVacHumanReadableValue m .ERROR v
          { s1 with error_code := some r.1
                    warnings := s1.warnings + (if r.2 then 1 else 0) }
      | _, _ => { s1 with error_code := some (.pint 0) }

/-- `RoboVacEntity._update_mode_and_fan_speed` (vacuum.py). -/
def updateModeAndFanSpeed (tuya : List (String × String))
    (vac : Option RobovacModelDetails) (s : EntityState) : EntityState :=
  match s.tuyastatus with
  | none => s
  | some dps =>
      let s1 :=
        match dget dps (getDpsCode tuya vac "MODE"), vac with
        | some v, some m =>
            let r := getRoboVacHumanReadableValue m .MODE v
            { s with mode := some r.1
                     warnings := s.warnings + (if r.2 then 1 else 0) }
        | _, _ => { s with mode := some (.pstr "") }
      let fs := (dget dps (getDpsCode tuya vac "FAN_SPEED")).getD (.pstr "")
      let s2 := { s1 with fan_speed := some fs }
      match s2.fan_speed with
      | some (.pstr t) =>
          let t2 :=
            if t = "No_suction" then "No Suction"
            else if t = "Boost_IQ" then "Boost IQ"
            else if t = "Quiet" then "Pure"
            else t
          { s2 with fan_speed := some (.pstr t2) }
      | _ => s2

/-- Python `k in container` for a string `k`: membership of the keys for a
dict, of the elements for a list, substring for a string; `TypeError`
(`none`) otherwise. -/
def pyContains (lit : PyLit) (k : String) : Option Bool :=
  match lit with
  | .dict pairs => some (pairs.anyKey k)
  | .list items => some (items.anyEqStr k)
  | .str s => some (decide (k.toList <:+: s.toList))
  | _ => none

/-- Python `container[k]` for a string `k`: dict lookup (last binding wins,
as duplicate keys in a dict literal overwrite earlier ones); `TypeError` on
anything else. -/
def pyIndex (lit : PyLit) (k : String) : Option PyLit :=
  match lit with
  | .dict pairs => pairs.lookupLast k
  | _ => none

/-- Evaluation of the extraction condition and subscripting of the
consumables literal: `none` for an exception (`TypeError` on a
non-subscriptable value), `some none` when a key is missing (the `if` is
just false), `some (some d)` when `consumable.duration` exists. -/
def tryExtractConsumable (lit : PyLit) : Option (Option PyLit) :=
  match pyContains lit "consumable" with
  | none => none
  | some false => some none
  | some true =>
      match pyIndex lit "consumable" with
      | none => none
      | some inner =>
          match pyContains inner "duration" with
          | none => none
          | some false => some none
          | some true =>
              match pyIndex inner "duration" with
              | none => none
              | some d => some (some d)



/-- The full decode pipeline of one consumables DP value:
`ast.literal_eval(base64.b64decode(v).decode("ascii"))` followed by the key
checks; `none` is an exception anywhere in the `try` block, `some none`
means no assignment, `some (some d)` assigns `d`. -/
def processConsumableText (txt : String) : Option (Option PyLit) := do
  let bytes ← b64decodePy txt
  let text ← asciiDecode bytes
  let lit ← pyLiteralEval text
  tryExtractConsumable lit

/-- Application of one consumables DP value to the entity state: non-string
values are ignored, an exception in the decode pipeline warns and leaves
the cached value, a missing key pair leaves it silently, otherwise the
duration is cached. -/
def applyConsumableValue (s : EntityState) (v : PyVal) : EntityState :=
  match v with
  | .pstr txt =>
      match processConsumableText txt with
      | none => { s with warnings := s.warnings + 1 }
      | some none => s
      | some (some d) => { s with consumables := some d }
  | _ => s

/-- One iteration of the consumables loop of `_update_cleaning_stats`: the
code must be present in the snapshot with a non-`None` value. -/
def consumFoldStep (dps : Dps) (st : EntityState) (code : String) :
    EntityState :=
  match dget dps code with
  | some v => applyConsumableValue st v
  | none => st

/-- `RoboVacEntity._update_cleaning_stats` (vacuum.py): cleaning area/time
and the dependent toggles, then the consumables loop over the resolved
consumables codes. -/
def updateCleaningStats (tuya : List (String × String))
    (defConsum : List String) (vac : Option RobovacModelDetails)
    (s : EntityState) : EntityState :=
  match s.tuyastatus with
  | none => s
  | some dps =>
      let s1 :=
        match dget dps (getDpsCode tuya vac "CLEANING_AREA") with
        | some v => { s with cleaning_area := some (pyStr v) }
        | none => s
      let s2 :=
        match dget dps (getDpsCode tuya vac "CLEANING_TIME") with
        | some v =>
            { s1 with
              cleaning_time := some (pyStr v)
              auto_return :=
                (dget dps (getDpsCode tuya vac "AUTO_RETURN")).map pyStr
              do_not_disturb :=
                (dget dps (getDpsCode tuya vac "DO_NOT_DISTURB")).map pyStr
              boost_iq :=
                (dget dps (getDpsCode tuya vac "BOOST_IQ")).map pyStr }
        | none => s1
      if s2.robovac_supported &&& RoboVacEntityFeature.CONSUMABLES ≠ 0 then
        (getConsumablesCodes defConsum vac).foldl (consumFoldStep dps) s2
      else s2

/-- `RoboVacEntity.update_entity_values` (vacuum.py): store the vacuum's DP
snapshot, bail out (with a warning) when the vacuum is uninitialized or the
snapshot is missing or empty, else run the four update helpers. -/
def updateEntityValues (tuya : List (String × String))
    (defConsum : List String) (vac : Option RobovacModelDetails)
    (dpsOpt : Option Dps) (s : EntityState) : EntityState :=
  match vac with
  | none => { s with warnings := s.warnings + 1 }
  | some _ =>
      let s0 := { s with tuyastatus := dpsOpt }
      match dpsOpt with
      | none => { s0 with warnings := s0.warnings + 1 }
      | some dps =>
          if (dps : List (String × PyVal)).isEmpty then
            { s0 with warnings := s0.warnings + 1 }
          else
            updateCleaningStats tuya defConsum vac
              (updateModeAndFanSpeed tuya vac
                (updateStateAndError tuya vac
                  (updateBatteryLevel tuya vac s0)))

/-- The error-branch condition of `RoboVacEntity.activity`: the error code
is truthy and not in `[0, "no_error"]` (the `type(...) is not None`
conjunct of the source is identically true). -/
def errorActive : Option PyVal → Bool
  | none => false
  | some e =>
      pyTruthy e && !pyEq e (.pint 0) && !pyEq e (.pstr "no_error")

/-- `RoboVacEntity.activity` (vacuum.py): unknown when the raw state is
absent or 0; `ERROR` when an error is active; the declared activity mapping
looked up by `str` of the raw state when one exists (a miss is unknown);
otherwise the legacy string heuristics with `CLEANING` as default. -/
def activityOf (am : Option (List (String × VacuumActivity)))
    (st ec : Option PyVal) : Option VacuumActivity :=
  match st with
  | none => none
  | some v =>
      if pyEq v (.pint 0) then none
      else if errorActive ec then some .error
      else
        match am with
        | some mp => List.lookup (pyStr v) mp
        | none =>
            if pyEq v (.pstr "Charging") || pyEq v (.pstr "completed") then
              some .docked
            else if pyEq v (.pstr "Recharge") then some .returning
            else if pyEq v (.pstr "Sleeping") || pyEq v (.pstr "standby") then
              some .idle
            else if pyEq v (.pstr "Paused") then some .paused
            else some .cleaning

/-- The entity's `activity` property applied to its own attributes. -/
def entityActivity (s : EntityState) : Option VacuumActivity :=
  activityOf s.activity_mapping s.tuya_state s.error_code

/-- Truthiness of an optional string attribute. -/
def optStrTruthy : Option String → Bool
  | none => false
  | some t => t != ""

/-- A `PyVal` viewed as a literal (the attribute dict mixes both). -/
def pyValLit : PyVal → PyLit
  | .pnone => .nullv
  | .pint n => .int n
  | .pstr s => .str s
  | .pbool b => .bool b

/-- Python truthiness of a literal. -/
def pyLitTruthy : PyLit → Bool
  | .int n => n != 0
  | .str s => s != ""
  | .bool b => b
  | .nullv => false
  | .list .nil => false
  | .list (.cons _ _) => true
  | .dict .nil => false
  | .dict (.cons _ _ _) => true

/-- `RoboVacEntity.extra_state_attributes` (vacuum.py): the attribute dict,
with `getErrorMessage` (from the absent `errors.py`) passed in as
`errMsg`. -/
def extraStateAttributes (errMsg : PyVal → String) (s : EntityState) :
    List (String × PyLit) :=
  let d0 : List (String × PyLit) := []
  let d1 :=
    match s.error_code with
    | some e =>
        if !pyEq e (.pint 0) && !pyEq e (.pstr "no_error") then
          d0 ++ [("error", .str (errMsg e))]
        else d0
    | none => d0
  let d2 :=
    if s.robovac_supported &&& RoboVacEntityFeature.CLEANING_AREA ≠ 0 &&
        optStrTruthy s.cleaning_area then
      d1 ++ [("cleaning_area", .str (s.cleaning_area.getD ""))]
    else d1
  let d3 :=
    if s.robovac_supported &&& RoboVacEntityFeature.CLEANING_TIME ≠ 0 &&
        optStrTruthy s.cleaning_time then
      d2 ++ [("cleaning_time", .str (s.cleaning_time.getD ""))]
    else d2
  let d4 :=
    if s.robovac_supported &&& RoboVacEntityFeature.AUTO_RETURN ≠ 0 &&
        optStrTruthy s.auto_return then
      d3 ++ [("auto_return", .str (s.auto_return.getD ""))]
    else d3
  let d5 :=
    if s.robovac_supported &&& RoboVacEntityFeature.DO_NOT_DISTURB ≠ 0 &&
        optStrTruthy s.do_not_disturb then
      d4 ++ [("do_not_disturb", .str (s.do_not_disturb.getD ""))]
    else d4
  let d6 :=
    if s.robovac_supported &&& RoboVacEntityFeature.BOOST_IQ ≠ 0 &&
        optStrTruthy s.boost_iq then
      d5 ++ [("boost_iq", .str (s.boost_iq.getD ""))]
    else d5
  let d7 :=
    if s.robovac_supported &&& RoboVacEntityFeature.CONSUMABLES ≠ 0 &&
        (s.consumables.map pyLitTruthy).getD false then
      d6 ++ [("consumables", s.consumables.getD .nullv)]
    else d6
  match s.mode with
  | some mv => if pyTruthy mv then d7 ++ [("mode", pyValLit mv)] else d7
  | none => d7


/-- The outcome of one poll: a transport failure (`TuyaException`), or a
success delivering the device's DP snapshot. -/
inductive PollOutcome where
  | failure
  | success (dps : Option Dps)

/-- `RoboVacEntity.async_update` (vacuum.py): skip frozen/unconfigured
entities; on success zero the failure counter and recompute entity values;
on failure count it and raise the `CONNECTION_FAILED` sentinel at
`UPDATE_RETRIES` consecutive failures. -/
def asyncUpdate (tuya : List (String × String)) (defConsum : List String)
    (vac : Option RobovacModelDetails) (hasIp : Bool) (o : PollOutcome)
    (s : EntityState) : EntityState :=
  if s.error_code = some (.pstr "UNSUPPORTED_MODEL") then s
  else if !hasIp then
    { s with error_code := some (.pstr "IP_ADDRESS")
             warnings := s.warnings + 1 }
  else
    match vac with
    | none =>
        { s with error_code := some (.pstr "INITIALIZATION_FAILED")
                 warnings := s.warnings + 1 }
    | some m =>
        match o with
        | .success dpsOpt =>
            updateEntityValues tuya defConsum (some m) dpsOpt
              { s with update_failures := 0 }
        | .failure =>
            let s1 := { s with update_failures := s.update_failures + 1
                               warnings := s.warnings + 1 }
            if UPDATE_RETRIES ≤ s1.update_failures then
              { s1 with error_code := some (.pstr "CONNECTION_FAILED") }
            else s1

/-- A sequence of polls folded through `asyncUpdate`. -/
def runUpdates (tuya : List (String × String)) (defConsum : List String)
    (m : RobovacModelDetails) (s : EntityState) (t : List PollOutcome) :
    EntityState :=
  t.foldl (fun st o => asyncUpdate tuya defConsum (some m) true o st) s

/-- Fold step tracking the current and the longest run of consecutive
failures in a poll trace. -/
def failRunStep : Nat × Nat → PollOutcome → Nat × Nat
  | (cur, best), .failure => (cur + 1, max best (cur + 1))
  | (_, best), .success _ => (0, best)

/-- The longest run of consecutive failures in a trace. -/
def maxFailRun (t : List PollOutcome) : Nat :=
  (t.foldl failRunStep (0, 0)).2

/-- The length of the trailing run of consecutive failures in a trace. -/
def trailFailRun (t : List PollOutcome) : Nat :=
  (t.foldl failRunStep (0, 0)).1

/-- The error attribute that `_update_state_and_error` derives from a
snapshot: the human-readable form of the error DP value when present, else
the integer 0. -/
def derivedErr (tuya : List (String × String)) (m : RobovacModelDetails)
    (dps : Dps) : PyVal :=
  match dget dps (getDpsCode tuya (some m) "ERROR_CODE") with
  | some v => (getRoboVacHumanReadableValue m .ERROR v).1
  | none => .pint 0

/-- A poll success is benign when the error value it derives from the
snapshot is not one of the controller's own sentinels (an adversarial
snapshot could otherwise spoof `CONNECTION_FAILED` or freeze the entity
with `UNSUPPORTED_MODEL`). -/
def successBenign (tuya : List (String × String)) (m : RobovacModelDetails) :
    PollOutcome → Bool
  | .failure => true
  | .success none => true
  | .success (some dps) =>
      if dps.isEmpty then true
      else
        derivedErr tuya m dps != .pstr "CONNECTION_FAILED" &&
        derivedErr tuya m dps != .pstr "UNSUPPORTED_MODEL"

/-- The (aliased name, code) pairs contributed by a commands list, in
declaration order. -/
def declCodes (cmds : List (RobovacCommand × CommandDecl)) :
    List (String × String) :=
  cmds.filterMap (fun p =>
    match p.2 with
    | .entry (some c) _ => some (dpsName p.1, pyStr c)
    | .entry none _ => none
    | .direct v => some (dpsName p.1, pyStr v))

/-- The DP-code resolver as the spec words it: the declared code of the
first command whose aliased logical name matches (entries that are dicts
without a `code` key are skipped), else the global default table's entry,
else the empty string as the unsupported marker. -/
def resolveSpecSide (tuya : List (String × String)) (m : RobovacModelDetails)
    (name : String) : String :=
  match m.commands.findSome? (fun p =>
      if dpsName p.1 = name then
        match p.2 with
        | .entry (some c) _ => some (pyStr c)
        | .entry none _ => none
        | .direct v => some (pyStr v)
      else none) with
  | some c => c
  | none => (List.lookup name tuya).getD ""

/-- The raw DP snapshot of the spec's end-to-end example for model T2080. -/
def dps5 : Dps :=
  [("153", .pstr "BhAHQgBSAA=="), ("163", .pstr "85"), ("106", .pint 0)]

/-- `base64` of the consumables payload of the spec's example (the decoded
text is the literal with `consumable.duration = 42`). -/
def consumablePayload : String :=
  "eydjb25zdW1hYmxlJzogeydkdXJhdGlvbic6IDQyfX0="

/-- A model-details value of the shape the repository's unit tests build:
an `ERROR` command whose values mapping has the string key "0" (raw error
DPs arrive as ints). -/
def errStrKeyModel : RobovacModelDetails where
  homeassistant_features := 0
  robovac_features := 0
  commands :=
    [(.ERROR, .entry (some (.pint 106))
        (some (.vdict [("0", .pstr "No error")])))]

/-- A poll trace with two consecutive failures, a recovering success and a
further failure: its longest failure run is 2. -/
def trace4 : List PollOutcome :=
  [.failure, .failure, .success (some dps5), .failure]

/-- An entity state whose snapshot has the spec's consumables payload under
DP code "168". -/
def s168 : EntityState :=
  { mkInitialState T2080 with
      tuyastatus := some [("168", .pstr consumablePayload)] }

/-- All entity fields except the consumables cache and the warning counter,
bundled for preservation lemmas about the consumables loop. -/
def coreFields (s : EntityState) :=
  (s.battery_level, s.tuya_state, s.error_code, s.mode, s.fan_speed,
   s.cleaning_area, s.cleaning_time, s.auto_return, s.do_not_disturb,
   s.boost_iq, s.robovac_supported, s.activity_mapping, s.update_failures,
   s.tuyastatus)

/-- The entity state computed from the spec's T2080 end-to-end snapshot
before the consumables loop runs (which, on this snapshot, can only add
warnings): battery 85, human-readable status "Standby", error 0, and a
single warning from the valueless `ERROR` translation. -/
def endToEndCore : EntityState :=
  { battery_level := 85
    tuya_state := some (.pstr "Standby")
    error_code := some (.pint 0)
    mode := some (.pstr "")
    fan_speed := some (.pstr "")
    consumables := none
    robovac_supported := T2080.robovac_features
    activity_mapping := T2080.activity_mapping
    update_failures := 0
    tuyastatus := some dps5
    warnings := 1 }

/-- Applying one consumables value changes at most the consumables cache
and the warning counter. -/
theorem applyConsumableValue_core (s : EntityState) (v : PyVal) :
    coreFields (applyConsumableValue s v) = coreFields s := by
  unfold applyConsumableValue
  cases v with
  | pstr txt =>
      cases h : processConsumableText txt with
      | none => simp [h, coreFields]
      | some o => cases o <;> simp [h, coreFields]
  | pnone => rfl
  | pint n => rfl
  | pbool b => rfl

/-- One iteration of the consumables loop changes at most the consumables
cache and the warning counter. -/
theorem consumFoldStep_core (dps : Dps) (st : EntityState) (code : String) :
    coreFields (consumFoldStep dps st code) = coreFields st := by
  unfold consumFoldStep
  cases h : dget dps code with
  | some v => exact applyConsumableValue_core st v
  | none => rfl

/-- The whole consumables loop changes at most the consumables cache and
the warning counter. -/
theorem consumFold_core (dps : Dps) (codes : List String) (st : EntityState) :
    coreFields (codes.foldl (consumFoldStep dps) st) = coreFields st := by
  induction codes generalizing st with
  | nil => rfl
  | cons c rest ih =>
      rw [List.foldl_cons, ih (consumFoldStep dps st c),
        consumFoldStep_core]

/-- Field-by-field reading of `consumFold_core`. -/
theorem consumFold_fields (dps : Dps) (codes : List String)
    (st : EntityState) :
    (codes.foldl (consumFoldStep dps) st).battery_level = st.battery_level ∧
    (codes.foldl (consumFoldStep dps) st).tuya_state = st.tuya_state ∧
    (codes.foldl (consumFoldStep dps) st).error_code = st.error_code ∧
    (codes.foldl (consumFoldStep dps) st).mode = st.mode ∧
    (codes.foldl (consumFoldStep dps) st).fan_speed = st.fan_speed ∧
    (codes.foldl (consumFoldStep dps) st).cleaning_area = st.cleaning_area ∧
    (codes.foldl (consumFoldStep dps) st).cleaning_time = st.cleaning_time ∧
    (codes.foldl (consumFoldStep dps) st).auto_return = st.auto_return ∧
    (codes.foldl (consumFoldStep dps) st).do_not_disturb =
      st.do_not_disturb ∧
    (codes.foldl (consumFoldStep dps) st).boost_iq = st.boost_iq ∧
    (codes.foldl (consumFoldStep dps) st).robovac_supported =
      st.robovac_supported ∧
    (codes.foldl (consumFoldStep dps) st).activity_mapping =
      st.activity_mapping ∧
    (codes.foldl (consumFoldStep dps) st).update_failures =
      st.update_failures ∧
    (codes.foldl (consumFoldStep dps) st).tuyastatus = st.tuyastatus := by
  have h := consumFold_core dps codes st
  simpa [coreFields, Prod.mk.injEq] using h

/-- C6: the consumables payload `base64` of a literal with
`consumable.duration = 42` sets the cached consumables attribute to 42; any
value on which the decode pipeline raises leaves the cache unchanged and
logs exactly one warning (and, the entity update being a total function,
nothing propagates); a decoded literal without the `consumable.duration`
keys leaves the cache unchanged silently. -/
theorem c6_consumables_decode :
    (∀ tuya, (updateCleaningStats tuya ["168"] (some T2080)
        s168).consumables = some (.int 42)) ∧
    (∀ s txt, processConsumableText txt = none →
      applyConsumableValue s (.pstr txt) =
        { s with warnings := s.warnings + 1 }) ∧
    (∀ s txt, processConsumableText txt = some none →
      applyConsumableValue s (.pstr txt) = s) := by
  refine ⟨fun tuya => ?_, fun s txt h => ?_, fun s txt h => ?_⟩
  · unfold updateCleaningStats
    have hts : s168.tuyastatus = some [("168", .pstr consumablePayload)] :=
      rfl
    rw [hts]
    have h1 : getDpsCode tuya (some T2080) "CLEANING_AREA" = "7" := rfl
    have h2 : getDpsCode tuya (some T2080) "CLEANING_TIME" = "6" := rfl
    rw [h1, h2]
    have h7 : dget [("168", .pstr consumablePayload)] "7" = none := rfl
    have h6 : dget [("168", .pstr consumablePayload)] "6" = none := rfl
    simp only [h7, h6]
    rfl
  · simp [applyConsumableValue, h]
  · simp [applyConsumableValue, h]

/-- Witness for C6: the T2080 battery string "85" is not valid base64
(incorrect padding), so the decode warns and leaves the cache; the spec's
payload decodes to 42 (instantiated at an empty default table). -/
theorem c6_consumables_decode_witness :
    processConsumableText "85" = none ∧
    applyConsumableValue (mkInitialState T2080) (.pstr "85") =
      { mkInitialState T2080 with
          warnings := (mkInitialState T2080).warnings + 1 } ∧
    (updateCleaningStats [] ["168"] (some T2080) s168).consumables =
      some (.int 42) :=
  ⟨rfl, c6_consumables_decode.2.1 (mkInitialState T2080) "85" rfl,
   c6_consumables_decode.1 []⟩

/-- On the spec's T2080 snapshot no consumables code can set the cache: the
status blob and the battery string both fail the decode pipeline and the
error DP is an int. -/
theorem consumFoldStep_dps5_consumables (st : EntityState) (code : String) :
    (consumFoldStep dps5 st code).consumables = st.consumables := by
  unfold consumFoldStep
  by_cases h1 : code = "153"
  · subst h1; rfl
  · by_cases h2 : code = "163"
    · subst h2; rfl
    · by_cases h3 : code = "106"
      · subst h3; rfl
      · have e1 : (code == "153") = false := by simp [h1]
        have e2 : (code == "163") = false := by simp [h2]
        have e3 : (code == "106") = false := by simp [h3]
        have hnone : dget dps5 code = none := by
          simp [dget, dps5, List.lookup, e1, e2, e3]
        rw [hnone]

/-- The whole consumables loop leaves the cache unchanged on the spec's
T2080 snapshot, whatever the resolved code list is. -/
theorem consumFold_dps5_consumables (codes : List String)
    (st : EntityState) :
    (codes.foldl (consumFoldStep dps5) st).consumables = st.consumables := by
  induction codes generalizing st with
  | nil => rfl
  | cons c rest ih =>
      rw [List.foldl_cons, ih, consumFoldStep_dps5_consumables]

/-- The C5 pipeline reduces to the consumables loop applied to the
concrete pre-loop state `endToEndCore`. -/
theorem c5_pipeline_eq (tuya : List (String × String)) (dc : List String) :
    updateEntityValues tuya dc (some T2080) (some dps5)
        (mkInitialState T2080) =
      dc.foldl (consumFoldStep dps5) endToEndCore := by
  have hred : updateEntityValues tuya dc (some T2080) (some dps5)
      (mkInitialState T2080) =
      updateCleaningStats tuya dc (some T2080)
        (updateModeAndFanSpeed tuya (some T2080)
          (updateStateAndError tuya (some T2080)
            (updateBatteryLevel tuya (some T2080)
              { mkInitialState T2080 with tuyastatus := some dps5 }))) := by
    unfold updateEntityValues
    simp [show dps5.isEmpty = false from rfl]
  have hchain : updateModeAndFanSpeed tuya (some T2080)
      (updateStateAndError tuya (some T2080)
        (updateBatteryLevel tuya (some T2080)
          { mkInitialState T2080 with tuyastatus := some dps5 })) =
      endToEndCore := rfl
  rw [hred, hchain]
  unfold updateCleaningStats
  rw [show endToEndCore.tuyastatus = some dps5 from rfl]
  rw [show getDpsCode tuya (some T2080) "CLEANING_AREA" = "7" from rfl,
    show getDpsCode tuya (some T2080) "CLEANING_TIME" = "6" from rfl]
  simp only [show dget dps5 "7" = none from rfl,
    show dget dps5 "6" = none from rfl]
  rw [show getConsumablesCodes dc (some T2080) = dc from rfl]
  rw [if_pos (show endToEndCore.robovac_supported &&&
    RoboVacEntityFeature.CONSUMABLES ≠ 0 by decide)]

/-- C5: on model T2080 with raw snapshot
`("153", "BhAHQgBSAA="), ("163", "85"), ("106", 0)`, recomputing the entity
values yields battery 85, human-readable status "Standby", derived activity
`IDLE`, error code 0, and no `error` entry in the extra state attributes
(for any default code table, consumables code list and error-message
table). -/
theorem c5_t2080_end_to_end (tuya : List (String × String))
    (dc : List String) (errMsg : PyVal → String) :
    (updateEntityValues tuya dc (some T2080) (some dps5)
        (mkInitialState T2080)).battery_level = 85 ∧
    (updateEntityValues tuya dc (some T2080) (some dps5)
        (mkInitialState T2080)).tuya_state = some (.pstr "Standby") ∧
    entityActivity (updateEntityValues tuya dc (some T2080) (some dps5)
        (mkInitialState T2080)) = some .idle ∧
    (updateEntityValues tuya dc (some T2080) (some dps5)
        (mkInitialState T2080)).error_code = some (.pint 0) ∧
    List.lookup "error" (extraStateAttributes errMsg
        (updateEntityValues tuya dc (some T2080) (some dps5)
          (mkInitialState T2080))) = none := by
  rw [c5_pipeline_eq tuya dc]
  obtain ⟨hb, hts, herr, hmode, hfs, hca, hct, har, hdnd, hbq, hrs, ham,
    huf, htuy⟩ := consumFold_fields dps5 dc endToEndCore
  have hcons := consumFold_dps5_consumables dc endToEndCore
  refine ⟨?_, ?_, ?_, ?_, ?_⟩
  · rw [hb]; rfl
  · rw [hts]; rfl
  · unfold entityActivity
    rw [ham, hts, herr]
    rfl
  · rw [herr]; rfl
  · simp only [extraStateAttributes, herr, hca, hct, har, hdnd, hbq, hrs,
      hmode, hcons]
    rfl

/-- C2: whenever the raw status is present (neither `None` nor 0) and the
error code is present, truthy, and neither 0 nor `"no_error"`, the derived
activity is `ERROR`, whatever the status would otherwise map to. -/
theorem c2_error_overrides_activity
    (am : Option (List (String × VacuumActivity))) (st ec : Option PyVal)
    (v e : PyVal) (hst : st = some v) (h0 : pyEq v (.pint 0) = false)
    (hec : ec = some e) (ht : pyTruthy e = true)
    (he0 : pyEq e (.pint 0) = false)
    (hne : pyEq e (.pstr "no_error") = false) :
    activityOf am st ec = some .error := by
  subst hst hec
  simp [activityOf, errorActive, h0, ht, he0, hne]

/-- Witness for C2: on the T2080 mapping, status `"Auto Cleaning"` maps to
`CLEANING`, yet with error `"E001"` the derived activity is `ERROR`. -/
theorem c2_error_overrides_activity_witness :
    List.lookup "Auto Cleaning" (T2080.activity_mapping.getD []) =
      some .cleaning ∧
    activityOf T2080.activity_mapping (some (.pstr "Auto Cleaning"))
      (some (.pstr "E001")) = some .error :=
  ⟨by decide,
   c2_error_overrides_activity T2080.activity_mapping _ _ _ _ rfl (by decide)
     rfl (by decide) (by decide) (by decide)⟩

/-- C3: with a declared activity mapping, a present status and no active
error, the derived activity is exactly the mapping lookup of `str` of the
raw status: the mapped activity when the key is declared, `None` (never a
heuristic state) when it is absent. -/
theorem c3_strict_activity_mapping
    (mp : List (String × VacuumActivity)) (st ec : Option PyVal) (v : PyVal)
    (hst : st = some v) (h0 : pyEq v (.pint 0) = false)
    (herr : errorActive ec = false) :
    activityOf (some mp) st ec = List.lookup (pyStr v) mp := by
  subst hst
  simp [activityOf, h0, herr]

/-- Witness for C3: on the T2080 mapping, an undeclared status yields no
activity while a declared one yields its mapped activity. -/
theorem c3_strict_activity_mapping_witness :
    activityOf (some (T2080.activity_mapping.getD []))
      (some (.pstr "Mystery Status")) (some (.pint 0)) = none ∧
    activityOf (some (T2080.activity_mapping.getD []))
      (some (.pstr "Standby")) (some (.pint 0)) = some .idle := by
  constructor
  · rw [c3_strict_activity_mapping (T2080.activity_mapping.getD []) _ _
      (.pstr "Mystery Status") rfl (by decide) (by decide)]
    decide
  · rw [c3_strict_activity_mapping (T2080.activity_mapping.getD []) _ _
      (.pstr "Standby") rfl (by decide) (by decide)]
    decide

/-- C7: for every model in the registry, whenever the command is unknown,
carries no values mapping, or the value is not one of the mapping's keys,
`getRoboVacCommandValue` returns the value unchanged (and, being a total
function, never raises). -/
theorem c7_encode_pass_through
    (p : String × RobovacModelDetails) (hp : p ∈ registry)
    (cmd : RobovacCommand) (v : PyVal)
    (h : ∀ d, getCommandValues p.2 cmd = some d → lookupPy d v = none) :
    getRoboVacCommandValue p.2 cmd v = v := by
  cases hcv : getCommandValues p.2 cmd with
  | none => simp [getRoboVacCommandValue, hcv]
  | some d => simp [getRoboVacCommandValue, hcv, h d hcv]

/-- Witness for C7: T2080 declares `BATTERY` without a values mapping, so
encoding passes the value through. -/
theorem c7_encode_pass_through_witness :
    getRoboVacCommandValue T2080 .BATTERY (.pstr "85") = .pstr "85" :=
  c7_encode_pass_through ("T2080", T2080) (by decide) .BATTERY (.pstr "85")
    (fun d hd => by
      have hnone : getCommandValues T2080 .BATTERY = none := by decide
      rw [hnone] at hd
      exact Option.noConfusion hd)

/-- C10: in `getRoboVacHumanReadableValue`, a non-string value whose `str`
form is a key of the command's mapping is not translated: the membership
test passes via `str(value)`, the indexing by the raw value raises a
`KeyError` that is swallowed, and the raw value comes back with the warning
logged. -/
theorem c10_decode_str_key_mismatch
    (m : RobovacModelDetails) (cmd : RobovacCommand)
    (d : List (String × PyVal)) (v x : PyVal)
    (hv : ∀ t, v ≠ .pstr t)
    (hd : getCommandValues m cmd = some d)
    (hmem : lookupPy d (.pstr (pyStr v)) = some x)
    (hmiss : lookupPy d v = none) :
    getRoboVacHumanReadableValue m cmd v = (v, true) := by
  simp [getRoboVacHumanReadableValue, hd, hmem, hmiss]

/-- Witness for C10: the integer 0 against a mapping with string key "0"
comes back untranslated, with the warning flag set. -/
theorem c10_decode_str_key_mismatch_witness :
    getRoboVacHumanReadableValue errStrKeyModel .ERROR (.pint 0) =
      (.pint 0, true) :=
  c10_decode_str_key_mismatch errStrKeyModel .ERROR
    [("0", .pstr "No error")] (.pint 0) (.pstr "No error")
    (fun t => by simp) (by decide) (by decide) (by decide)

/-- C1 as stated is false: on T2278's `MODE` mapping the declared human key
`"auto"` encodes to `"BBoCCAE="`, and decoding that value returns it
unchanged rather than `"auto"`, because the decode direction looks the
device value up as a key of the same table. -/
theorem c1_roundtrip_counterexample :
    getRoboVacCommandValue T2278 .MODE (.pstr "auto") = .pstr "BBoCCAE=" ∧
    (getRoboVacHumanReadableValue T2278 .MODE
        (getRoboVacCommandValue T2278 .MODE (.pstr "auto"))).1 =
      .pstr "BBoCCAE=" ∧
    (getRoboVacHumanReadableValue T2278 .MODE
        (getRoboVacCommandValue T2278 .MODE (.pstr "auto"))).1 ≠
      .pstr "auto" := by
  decide

/-- `str` of a Python string is itself. -/
theorem pyStr_pstr (s : String) : pyStr (.pstr s) = s := rfl

/-- C1 amended: for a command with a values mapping and a declared key `h`
(mapped to `x`), decoding the encoded value returns `h` exactly when the
table maps the encoded value `str(x)` back to a value whose `str` form is
`h`, or the encoded value is absent from the keys and is itself `h`. -/
theorem c1_roundtrip_characterization
    (m : RobovacModelDetails) (cmd : RobovacCommand)
    (d : List (String × PyVal)) (h : String) (x : PyVal)
    (hd : getCommandValues m cmd = some d)
    (hk : lookupPy d (.pstr h) = some x) :
    ((getRoboVacHumanReadableValue m cmd
        (getRoboVacCommandValue m cmd (.pstr h))).1 = .pstr h ↔
      (match lookupPy d (.pstr (pyStr x)) with
       | some y => pyStr y = h
       | none => pyStr x = h)) := by
  have henc : getRoboVacCommandValue m cmd (.pstr h) = .pstr (pyStr x) := by
    simp [getRoboVacCommandValue, hd, hk]
  rw [henc]
  cases hy : lookupPy d (.pstr (pyStr x)) with
  | some y =>
      simp [getRoboVacHumanReadableValue, hd, pyStr_pstr, hy]
  | none =>
      simp [getRoboVacHumanReadableValue, hd, pyStr_pstr, hy]

/-- Witness for C1 (amended): T2320's `MODE` maps `"auto"` to itself, and
there the round trip does return the original key. -/
theorem c1_roundtrip_characterization_witness :
    (getRoboVacHumanReadableValue T2320 .MODE
        (getRoboVacCommandValue T2320 .MODE (.pstr "auto"))).1 =
      .pstr "auto" := by
  rw [c1_roundtrip_characterization T2320 .MODE
    [("auto", .pstr "auto"), ("return", .pstr "return"),
     ("pause", .pstr "pause"), ("small_room", .pstr "small_room"),
     ("single_room", .pstr "single_room")] "auto" (.pstr "auto")
    (by decide) (by decide)]
  exact rfl

/-- With no snapshot, the battery update is a no-op. -/
theorem updateBatteryLevel_none (tuya : List (String × String))
    (vac : Option RobovacModelDetails) (s : EntityState)
    (h : s.tuyastatus = none) : updateBatteryLevel tuya vac s = s := by
  unfold updateBatteryLevel
  rw [h]

/-- The battery level computed by the battery update from a snapshot. -/
theorem updateBatteryLevel_eq (tuya : List (String × String))
    (vac : Option RobovacModelDetails) (s : EntityState) (dps : Dps)
    (h : s.tuyastatus = some dps) :
    (updateBatteryLevel tuya vac s).battery_level =
      (match dget dps (getDpsCode tuya vac "BATTERY_LEVEL") with
       | none => 0
       | some v =>
          match pyToInt v with
          | none => 0
          | some n => max 0 (min 100 n)) := by
  unfold updateBatteryLevel
  rw [h]
  cases hd : dget dps (getDpsCode tuya vac "BATTERY_LEVEL") with
  | none => simp [hd]
  | some v =>
      cases hi : pyToInt v with
      | none => simp [hd, hi]
      | some n => simp [hd, hi]

/-- C9: after the battery-level update the battery level is always within
0..100; when the snapshot is present, a missing or unconvertible DP value
yields exactly 0 and a convertible one is clamped into 0..100. -/
theorem c9_battery_level_invariant
    (tuya : List (String × String)) (vac : Option RobovacModelDetails)
    (s : EntityState) (hlo : 0 ≤ s.battery_level)
    (hhi : s.battery_level ≤ 100) :
    (0 ≤ (updateBatteryLevel tuya vac s).battery_level ∧
      (updateBatteryLevel tuya vac s).battery_level ≤ 100) ∧
    (∀ dps, s.tuyastatus = some dps →
      ((dget dps (getDpsCode tuya vac "BATTERY_LEVEL") = none →
          (updateBatteryLevel tuya vac s).battery_level = 0) ∧
       (∀ v, dget dps (getDpsCode tuya vac "BATTERY_LEVEL") = some v →
          (pyToInt v = none →
            (updateBatteryLevel tuya vac s).battery_level = 0) ∧
          (∀ n, pyToInt v = some n →
            (updateBatteryLevel tuya vac s).battery_level =
              max 0 (min 100 n))))) := by
  constructor
  · cases hts : s.tuyastatus with
    | none => rw [updateBatteryLevel_none tuya vac s hts]; exact ⟨hlo, hhi⟩
    | some dps =>
        rw [updateBatteryLevel_eq tuya vac s dps hts]
        cases hd : dget dps (getDpsCode tuya vac "BATTERY_LEVEL") with
        | none => norm_num
        | some v =>
            simp only [hd]
            cases hi : pyToInt v with
            | none => simp [hi]
            | some n =>
                simp only [hi]
                exact ⟨le_max_left 0 _,
                  max_le (by norm_num : (0 : Int) ≤ 100) (min_le_left 100 n)⟩
  · intro dps hdps
    rw [updateBatteryLevel_eq tuya vac s dps hdps]
    refine ⟨fun h => by simp [h], fun v hv => ?_⟩
    simp only [hv]
    exact ⟨fun h2 => by simp [h2], fun n hn => by simp [hn]⟩

/-- Witness for C9: an out-of-range convertible value ("850") is clamped to
100 on a T2080 snapshot. -/
theorem c9_battery_level_invariant_witness :
    (updateBatteryLevel [] (some T2080)
      { mkInitialState T2080 with
          tuyastatus := some [("163", .pstr "850")] }).battery_level = 100 := by
  have h := (c9_battery_level_invariant [] (some T2080)
    { mkInitialState T2080 with tuyastatus := some [("163", .pstr "850")] }
    (by decide) (by decide)).2 [("163", .pstr "850")] rfl
  have h2 := (h.2 (.pstr "850") (by decide)).2 850 (by decide)
  simpa using h2

/-- `dictInsert` with a fresh key is an append. -/
theorem dictInsert_fresh (d : List (String × String)) (k v : String)
    (h : d.any (fun p => p.1 == k) = false) :
    dictInsert d k v = d ++ [(k, v)] := by
  simp [dictInsert, h]

/-- A key outside the key list never tests positive. -/
theorem any_key_eq_false_of_not_mem (d : List (String × String))
    (k : String) (h : k ∉ d.map Prod.fst) :
    (d.any (fun p => p.1 == k)) = false := by
  rw [List.any_eq_false]
  intro p hp
  simp only [beq_iff_eq]
  intro hk
  exact h (List.mem_map.mpr ⟨p, hp, hk⟩)

/-- When the aliased names with codes are pairwise distinct, the
`getDpsCodes` fold merely appends its contributions. -/
theorem dpsCodes_foldl_eq (cmds : List (RobovacCommand × CommandDecl)) :
    ∀ acc : List (String × String),
      ((acc ++ declCodes cmds).map Prod.fst).Nodup →
      cmds.foldl dpsStep acc = acc ++ declCodes cmds := by
  induction cmds with
  | nil => intro acc _; simp [declCodes]
  | cons p rest ih =>
      intro acc h
      rw [List.foldl_cons]
      cases hp2 : p.2 with
      | direct v =>
          have hdecl : declCodes (p :: rest) =
              (dpsName p.1, pyStr v) :: declCodes rest := by
            simp [declCodes, hp2]
          rw [hdecl] at h
          have hfresh : acc.any (fun q => q.1 == dpsName p.1) = false := by
            apply any_key_eq_false_of_not_mem
            intro hmem
            have := (List.nodup_append.mp (by simpa using h)).2.2
            exact this hmem (by simp)
          have hstep : dpsStep acc p = acc ++ [(dpsName p.1, pyStr v)] := by
            simp [dpsStep, hp2, dictInsert_fresh acc _ _ hfresh]
          rw [hstep, hdecl,
            ih (acc ++ [(dpsName p.1, pyStr v)]) (by simpa using h)]
          simp
      | entry oc ov =>
          cases oc with
          | none =>
              have hdecl : declCodes (p :: rest) = declCodes rest := by
                simp [declCodes, hp2]
              rw [hdecl] at h
              have hstep : dpsStep acc p = acc := by simp [dpsStep, hp2]
              rw [hstep, hdecl, ih acc h]
          | some c =>
              have hdecl : declCodes (p :: rest) =
                  (dpsName p.1, pyStr c) :: declCodes rest := by
                simp [declCodes, hp2]
              rw [hdecl] at h
              have hfresh : acc.any (fun q => q.1 == dpsName p.1) = false := by
                apply any_key_eq_false_of_not_mem
                intro hmem
                have := (List.nodup_append.mp (by simpa using h)).2.2
                exact this hmem (by simp)
              have hstep : dpsStep acc p =
                  acc ++ [(dpsName p.1, pyStr c)] := by
                simp [dpsStep, hp2, dictInsert_fresh acc _ _ hfresh]
              rw [hstep, hdecl,
                ih (acc ++ [(dpsName p.1, pyStr c)]) (by simpa using h)]
              simp

/-- Looking a name up among the declared codes is the first matching
declared command, exactly as the spec-side resolver scans. -/
theorem lookup_declCodes (name : String)
    (cmds : List (RobovacCommand × CommandDecl)) :
    List.lookup name (declCodes cmds) =
      cmds.findSome? (fun p =>
        if dpsName p.1 = name then
          match p.2 with
          | .entry (some c) _ => some (pyStr c)
          | .entry none _ => none
          | .direct v => some (pyStr v)
        else none) := by
  induction cmds with
  | nil => rfl
  | cons p rest ih =>
      rw [List.findSome?_cons]
      cases hp2 : p.2 with
      | direct v =>
          have hd : declCodes (p :: rest) =
              (dpsName p.1, pyStr v) :: declCodes rest := by
            simp [declCodes, hp2]
          rw [hd]
          by_cases hk : dpsName p.1 = name
          · have hb : (name == dpsName p.1) = true := by simp [hk]
            simp [List.lookup, hb, hp2, hk]
          · have hb : (name == dpsName p.1) = false := by simp [Ne.symm hk]
            simp [List.lookup, hb, hp2, hk, ih]
      | entry oc ov =>
          cases oc with
          | none =>
              have hd : declCodes (p :: rest) = declCodes rest := by
                simp [declCodes, hp2]
              rw [hd]
              simp [hp2, ih]
          | some c =>
              have hd : declCodes (p :: rest) =
                  (dpsName p.1, pyStr c) :: declCodes rest := by
                simp [declCodes, hp2]
              rw [hd]
              by_cases hk : dpsName p.1 = name
              · have hb : (name == dpsName p.1) = true := by simp [hk]
                simp [List.lookup, hb, hp2, hk]
              · have hb : (name == dpsName p.1) = false := by
                  simp [Ne.symm hk]
                simp [List.lookup, hb, hp2, hk, ih]

/-- C8: on every model in the registry, DP-code resolution (a total
function, so it never raises) agrees with the spec-side resolver: the
model's declared code under the `BATTERY_LEVEL`/`ERROR_CODE` aliases with
code-less dict entries skipped, else the default table, else the empty
string. -/
theorem c8_resolution_total (p : String × RobovacModelDetails)
    (hp : p ∈ registry) (tuya : List (String × String)) (name : String) :
    getDpsCode tuya (some p.2) name = resolveSpecSide tuya p.2 name := by
  have hnodup :
      ((([] : List (String × String)) ++ declCodes p.2.commands).map
        Prod.fst).Nodup := by
    fin_cases hp <;> decide
  have h1 : getDpsCodes p.2 = declCodes p.2.commands := by
    have h2 := dpsCodes_foldl_eq p.2.commands [] hnodup
    simpa [getDpsCodes] using h2
  unfold getDpsCode resolveSpecSide
  show (match List.lookup name (getDpsCodes p.2) with
        | some c => c
        | none => (List.lookup name tuya).getD "") = _
  rw [h1, lookup_declCodes]

/-- Witness for C8: on T2080 the logical field `BATTERY_LEVEL` resolves to
code "163" on both sides, and an unknown field resolves to the empty
string. -/
theorem c8_resolution_total_witness :
    getDpsCode [] (some T2080) "BATTERY_LEVEL" =
      resolveSpecSide [] T2080 "BATTERY_LEVEL" ∧
    getDpsCode [] (some T2080) "BATTERY_LEVEL" = "163" ∧
    getDpsCode [] (some T2080) "NO_SUCH_FIELD" = "" :=
  ⟨c8_resolution_total ("T2080", T2080) (by decide) [] "BATTERY_LEVEL",
   by decide, by decide⟩

/-- The battery update touches neither the failure counter, the error code
nor the snapshot. -/
theorem updateBatteryLevel_aux (tuya : List (String × String))
    (vac : Option RobovacModelDetails) (s : EntityState) :
    (updateBatteryLevel tuya vac s).update_failures = s.update_failures ∧
    (updateBatteryLevel tuya vac s).error_code = s.error_code ∧
    (updateBatteryLevel tuya vac s).tuyastatus = s.tuyastatus := by
  unfold updateBatteryLevel
  cases hts : s.tuyastatus with
  | none => simp [hts]
  | some dps =>
      simp only [hts]
      cases hd : dget dps (getDpsCode tuya vac "BATTERY_LEVEL") with
      | none => simp [hts]
      | some v => cases hi : pyToInt v <;> simp [hi, hts]

/-- With a snapshot present, the state-and-error update sets the error code
to the derived error and touches neither the failure counter nor the
snapshot. -/
theorem updateStateAndError_aux (tuya : List (String × String))
    (m : RobovacModelDetails) (s : EntityState) (dps : Dps)
    (hts : s.tuyastatus = some dps) :
    (updateStateAndError tuya (some m) s).error_code =
      some (derivedErr tuya m dps) ∧
    (updateStateAndError tuya (some m) s).update_failures =
      s.update_failures ∧
    (updateStateAndError tuya (some m) s).tuyastatus = s.tuyastatus := by
  unfold updateStateAndError
  rw [hts]
  cases h1 : dget dps (getDpsCode tuya (some m) "STATUS") <;>
    cases h2 : dget dps (getDpsCode tuya (some m) "ERROR_CODE") <;>
      simp [h1, h2, derivedErr, hts]

/-- The mode-and-fan-speed update touches neither the failure counter, the
error code nor the snapshot. -/
theorem updateModeAndFanSpeed_aux (tuya : List (String × String))
    (vac : Option RobovacModelDetails) (s : EntityState) :
    (updateModeAndFanSpeed tuya vac s).update_failures =
      s.update_failures ∧
    (updateModeAndFanSpeed tuya vac s).error_code = s.error_code ∧
    (updateModeAndFanSpeed tuya vac s).tuyastatus = s.tuyastatus := by
  unfold updateModeAndFanSpeed
  cases hts : s.tuyastatus with
  | none => simp [hts]
  | some dps =>
      simp only [hts]
      cases vac with
      | none =>
          cases h1 : dget dps (getDpsCode tuya none "MODE") with
          | none =>
              cases hf : dget dps (getDpsCode tuya none "FAN_SPEED") with
              | none => simp [h1, hf, hts]
              | some fv => cases fv <;> simp [h1, hf, hts]
          | some mv =>
              cases hf : dget dps (getDpsCode tuya none "FAN_SPEED") with
              | none => simp [h1, hf, hts]
              | some fv => cases fv <;> simp [h1, hf, hts]
      | some m =>
          cases h1 : dget dps (getDpsCode tuya (some m) "MODE") with
          | none =>
              cases hf : dget dps (getDpsCode tuya (some m) "FAN_SPEED") with
              | none => simp [h1, hf, hts]
              | some fv => cases fv <;> simp [h1, hf, hts]
          | some mv =>
              cases hf : dget dps (getDpsCode tuya (some m) "FAN_SPEED") with
              | none => simp [h1, hf, hts]
              | some fv => cases fv <;> simp [h1, hf, hts]

/-- A guarded consumables loop touches neither the failure counter nor the
error code. -/
theorem consumGuard_aux (dps : Dps) (codes : List String)
    (st : EntityState) (cond : Prop) [Decidable cond] :
    ((if cond then codes.foldl (consumFoldStep dps) st
      else st).update_failures = st.update_failures) ∧
    ((if cond then codes.foldl (consumFoldStep dps) st
      else st).error_code = st.error_code) := by
  split
  · have h := consumFold_fields dps codes st
    exact ⟨h.2.2.2.2.2.2.2.2.2.2.2.2.1, h.2.2.1⟩
  · exact ⟨rfl, rfl⟩

/-- The cleaning-stats update touches neither the failure counter nor the
error code. -/
theorem updateCleaningStats_aux (tuya : List (String × String))
    (dc : List String) (vac : Option RobovacModelDetails)
    (s : EntityState) :
    (updateCleaningStats tuya dc vac s).update_failures =
      s.update_failures ∧
    (updateCleaningStats tuya dc vac s).error_code = s.error_code := by
  unfold updateCleaningStats
  cases hts : s.tuyastatus with
  | none => simp [hts]
  | some dps =>
      simp only [hts]
      cases h1 : dget dps (getDpsCode tuya vac "CLEANING_AREA") <;>
        cases h2 : dget dps (getDpsCode tuya vac "CLEANING_TIME") <;>
          exact ⟨(consumGuard_aux _ _ _ _).1, (consumGuard_aux _ _ _ _).2⟩

/-- The failure counter survives `update_entity_values` unchanged, and the
error code becomes the derived error exactly when a nonempty snapshot is
delivered. -/
theorem updateEntityValues_char (tuya : List (String × String))
    (dc : List String) (m : RobovacModelDetails) (dpsOpt : Option Dps)
    (s : EntityState) :
    (updateEntityValues tuya dc (some m) dpsOpt s).update_failures =
      s.update_failures ∧
    (updateEntityValues tuya dc (some m) dpsOpt s).error_code =
      (match dpsOpt with
       | some dps =>
          if dps.isEmpty then s.error_code
          else some (derivedErr tuya m dps)
       | none => s.error_code) := by
  cases dpsOpt with
  | none => exact ⟨rfl, rfl⟩
  | some dps =>
      cases he : dps.isEmpty with
      | true =>
          have hred : updateEntityValues tuya dc (some m) (some dps) s =
              { s with tuyastatus := some dps,
                       warnings := s.warnings + 1 } := by
            unfold updateEntityValues
            simp [he]
          rw [hred]
          exact ⟨rfl, by simp [he]⟩
      | false =>
          have hred : updateEntityValues tuya dc (some m) (some dps) s =
              updateCleaningStats tuya dc (some m)
                (updateModeAndFanSpeed tuya (some m)
                  (updateStateAndError tuya (some m)
                    (updateBatteryLevel tuya (some m)
                      { s with tuyastatus := some dps }))) := by
            unfold updateEntityValues
            simp [he]
          rw [hred]
          obtain ⟨hbf, _hbe, hbt⟩ := updateBatteryLevel_aux tuya (some m)
            { s with tuyastatus := some dps }
          obtain ⟨hse, hsf, _hst⟩ := updateStateAndError_aux tuya m
            (updateBatteryLevel tuya (some m)
              { s with tuyastatus := some dps }) dps (by rw [hbt])
          obtain ⟨hmf, hme, _hmt⟩ := updateModeAndFanSpeed_aux tuya (some m)
            (updateStateAndError tuya (some m)
              (updateBatteryLevel tuya (some m)
                { s with tuyastatus := some dps }))
          obtain ⟨hcf, hce⟩ := updateCleaningStats_aux tuya dc (some m)
            (updateModeAndFanSpeed tuya (some m)
              (updateStateAndError tuya (some m)
                (updateBatteryLevel tuya (some m)
                  { s with tuyastatus := some dps })))
          constructor
          · rw [hcf, hmf, hsf, hbf]
          · rw [hce, hme, hse]
            simp [he]

/-- Invariant of the poll loop started on a freshly initialized entity:
the failure counter equals the trailing failure run of the trace, the
entity never freezes on `UNSUPPORTED_MODEL`, and `CONNECTION_FAILED` can
only appear once some run of `UPDATE_RETRIES` consecutive failures has
occurred. -/
theorem c4_run_invariant (tuya : List (String × String)) (dc : List String)
    (m : RobovacModelDetails) (t : List PollOutcome)
    (hb : ∀ o ∈ t, successBenign tuya m o = true) :
    (runUpdates tuya dc m (mkInitialState m) t).update_failures =
      trailFailRun t ∧
    (runUpdates tuya dc m (mkInitialState m) t).error_code ≠
      some (.pstr "UNSUPPORTED_MODEL") ∧
    (maxFailRun t < UPDATE_RETRIES →
      (runUpdates tuya dc m (mkInitialState m) t).error_code ≠
        some (.pstr "CONNECTION_FAILED")) := by
  revert hb
  induction t using List.reverseRecOn with
  | nil =>
      intro _
      refine ⟨rfl, ?_, fun _ => ?_⟩ <;>
        simp [runUpdates, mkInitialState]
  | append_singleton t o ih =>
      intro hb
      have hbt : ∀ o' ∈ t, successBenign tuya m o' = true := fun o' ho' =>
        hb o' (by simp [ho'])
      obtain ⟨ihf, ihu, ihc⟩ := ih hbt
      have hrun : runUpdates tuya dc m (mkInitialState m) (t ++ [o]) =
          asyncUpdate tuya dc (some m) true o
            (runUpdates tuya dc m (mkInitialState m) t) := by
        simp [runUpdates, List.foldl_append]
      set r := runUpdates tuya dc m (mkInitialState m) t with hr
      cases o with
      | failure =>
          have htr : trailFailRun (t ++ [.failure]) = trailFailRun t + 1 := by
            simp [trailFailRun, List.foldl_append, failRunStep]
          have hmx : maxFailRun t ≤ maxFailRun (t ++ [.failure]) := by
            simp only [maxFailRun, List.foldl_append, List.foldl_cons,
              List.foldl_nil, failRunStep]
            exact le_max_left _ _
          have hmx2 : trailFailRun t + 1 ≤ maxFailRun (t ++ [.failure]) := by
            simp only [maxFailRun, trailFailRun, List.foldl_append,
              List.foldl_cons, List.foldl_nil, failRunStep]
            exact le_max_right _ _
          have hfa : asyncUpdate tuya dc (some m) true .failure r =
              if UPDATE_RETRIES ≤ r.update_failures + 1 then
                { r with update_failures := r.update_failures + 1,
                         warnings := r.warnings + 1,
                         error_code := some (.pstr "CONNECTION_FAILED") }
              else
                { r with update_failures := r.update_failures + 1,
                         warnings := r.warnings + 1 } := by
            simp [asyncUpdate, ihu]
          rw [hrun, hfa]
          by_cases hge : UPDATE_RETRIES ≤ r.update_failures + 1
          · rw [if_pos hge]
            refine ⟨by simp [htr, ihf], by simp, fun hmax => ?_⟩
            exfalso
            rw [ihf] at hge
            have := hmx2
            unfold UPDATE_RETRIES at hge hmax
            omega
          · rw [if_neg hge]
            refine ⟨by simp [htr, ihf], by simpa using ihu, fun hmax => ?_⟩
            have hlt : maxFailRun t < UPDATE_RETRIES :=
              lt_of_le_of_lt hmx hmax
            simpa using ihc hlt
      | success dpsOpt =>
          have hsa : asyncUpdate tuya dc (some m) true (.success dpsOpt) r =
              updateEntityValues tuya dc (some m) dpsOpt
                { r with update_failures := 0 } := by
            simp [asyncUpdate, ihu]
          rw [hrun, hsa]
          obtain ⟨hf, he⟩ := updateEntityValues_char tuya dc m dpsOpt
            { r with update_failures := 0 }
          have htr : trailFailRun (t ++ [.success dpsOpt]) = 0 := by
            simp [trailFailRun, List.foldl_append, failRunStep]
          have hmxs : maxFailRun t ≤ maxFailRun (t ++ [.success dpsOpt]) := by
            simp [maxFailRun, List.foldl_append, failRunStep]
          have hkeep :
              (({ r with update_failures := 0 } : EntityState).error_code ≠
                some (.pstr "UNSUPPORTED_MODEL")) ∧
              (maxFailRun (t ++ [.success dpsOpt]) < UPDATE_RETRIES →
                ({ r with update_failures := 0 } : EntityState).error_code ≠
                  some (.pstr "CONNECTION_FAILED")) :=
            ⟨by simpa using ihu,
             fun hmax => by simpa using ihc (lt_of_le_of_lt hmxs hmax)⟩
          cases dpsOpt with
          | none =>
              rw [he]
              exact ⟨by rw [hf, htr], hkeep.1, hkeep.2⟩
          | some dps =>
              by_cases hemp : dps.isEmpty = true
              · rw [he]
                simp only [hemp, if_pos]
                exact ⟨by rw [hf, htr], hkeep.1, hkeep.2⟩
              · have hben := hb (.success (some dps)) (by simp)
                rw [he]
                simp only [if_neg hemp]
                simp only [successBenign, if_neg hemp, Bool.and_eq_true,
                  bne_iff_ne, ne_eq] at hben
                refine ⟨by rw [hf, htr], ?_, fun _ => ?_⟩
                · intro hc
                  exact hben.2 (by injection hc)
                · intro hc
                  exact hben.1 (by injection hc)

/-- C4: from a ready entity, each failed poll increments the failure counter
by exactly one; on a failure the `CONNECTION_FAILED` sentinel is assigned
exactly when the counter reaches `UPDATE_RETRIES` (3); any successful poll
resets the counter to zero; and along any benign trace whose longest run of
consecutive failures stays below 3, the sentinel is never set. -/
theorem c4_retry_escalation :
    (∀ tuya dc m s,
      s.error_code ≠ some (.pstr "UNSUPPORTED_MODEL") →
      (asyncUpdate tuya dc (some m) true .failure s).update_failures =
        s.update_failures + 1) ∧
    (∀ tuya dc m s,
      s.error_code ≠ some (.pstr "UNSUPPORTED_MODEL") →
      s.error_code ≠ some (.pstr "CONNECTION_FAILED") →
      ((asyncUpdate tuya dc (some m) true .failure s).error_code =
          some (.pstr "CONNECTION_FAILED") ↔
        UPDATE_RETRIES ≤ s.update_failures + 1)) ∧
    (∀ tuya dc m s dpsOpt,
      s.error_code ≠ some (.pstr "UNSUPPORTED_MODEL") →
      (asyncUpdate tuya dc (some m) true (.success dpsOpt)
        s).update_failures = 0) ∧
    (∀ tuya dc m t,
      (∀ o ∈ t, successBenign tuya m o = true) →
      maxFailRun t < UPDATE_RETRIES →
      (runUpdates tuya dc m (mkInitialState m) t).error_code ≠
        some (.pstr "CONNECTION_FAILED")) := by
  refine ⟨?_, ?_, ?_, ?_⟩
  · intro tuya dc m s hu
    by_cases hge : UPDATE_RETRIES ≤ s.update_failures + 1 <;>
      simp [asyncUpdate, hu, hge]
  · intro tuya dc m s hu hc
    by_cases hge : UPDATE_RETRIES ≤ s.update_failures + 1
    · simp [asyncUpdate, hu, hge]
    · simp [asyncUpdate, hu, hge]
      exact hc
  · intro tuya dc m s dpsOpt hu
    have hsa : asyncUpdate tuya dc (some m) true (.success dpsOpt) s =
        updateEntityValues tuya dc (some m) dpsOpt
          { s with update_failures := 0 } := by
      simp [asyncUpdate, hu]
    rw [hsa, (updateEntityValues_char tuya dc m dpsOpt _).1]
  · intro tuya dc m t hb hmax
    exact (c4_run_invariant tuya dc m t hb).2.2 hmax

/-- Witness for C4: one failed poll on a fresh T2080 entity takes the
counter to 1, and the trace fail-fail-success-fail (longest failure run 2)
never sets the `CONNECTION_FAILED` sentinel. -/
theorem c4_retry_escalation_witness :
    (asyncUpdate [] [] (some T2080) true .failure
        (mkInitialState T2080)).update_failures = 1 ∧
    (runUpdates [] [] T2080 (mkInitialState T2080) trace4).error_code ≠
      some (.pstr "CONNECTION_FAILED") :=
  ⟨by
    have h := c4_retry_escalation.1 [] [] T2080 (mkInitialState T2080)
      (by decide)
    simpa [mkInitialState] using h,
   c4_retry_escalation.2.2.2 [] [] T2080 trace4 (by decide) (by decide)⟩

end Robovac
